import Mathlib

set_option linter.unusedVariables false

deriving instance DecidableEq for Except

/-!
Verification development for the Chatbot_GoogleAI repository.

Shallow embedding of the query-intent resolution and tool-dispatch layer:
the housing_query endpoint of `datapipeline_api.py`, the LLM-output parser
and chat endpoint of `chatbot_agent.py`, and the `execute_read_query` tools
of `tools_db.py` and `backend.py`.  Python `None`-able fields become
`Option`, Python float filter values are modelled as rationals, machine
exceptions become `Except`, and the SQLite connection is modelled as an
action trace.
-/

/-! ## Housing query builder (src/datapipeline_api.py, `query_housing_data`) -/

/-- A value bound as a SQL parameter (the `args` list handed to
`pd.read_sql_query`): either a string or a numeric filter value. -/
inductive SqlValue where
  | s (v : String)
  | n (v : Rat)
deriving DecidableEq, Repr

/-- The pydantic `HousingQuery` request model (fields and defaults as in the
source).  Python `float` filter values are modelled as rationals. -/
structure HousingQuery where
  ocean_proximity : Option String := none
  min_price : Option Rat := none
  max_price : Option Rat := none
  limit : Int := 5
  sort_by : Option String := none
  sort_order : Option String := some "ASC"
deriving DecidableEq, Repr

/-- Python `str.upper()` (ASCII; the strings this code compares are ASCII). -/
def pyUpper (s : String) : String := String.mk (s.toList.map Char.toUpper)

/-- Python `str.lower()` (ASCII; the strings this code compares are ASCII). -/
def pyLower (s : String) : String := String.mk (s.toList.map Char.toLower)

/-- Python truthiness of an optional string (`if params.ocean_proximity:`):
`None` and the empty string are falsy. -/
def truthyOptStr : Option String → Bool
  | none => false
  | some s => !(s == "")

/-- Python truthiness of an optional number (`if params.min_price:`):
`None` and `0` are falsy. -/
def truthyOptRat : Option Rat → Bool
  | none => false
  | some q => !(q == 0)

/-- The hard-coded sort whitelist `valid_sort_cols` of the source. -/
def valid_sort_cols : List String := ["median_house_value", "median_income", "housing_median_age"]

/-- The statement assembled by `query_housing_data` before rendering:
the filter predicates in order (column, operator, bound value), the
optional ORDER BY clause (column, direction), and the LIMIT value. -/
structure BuiltQuery where
  filters : List (String × String × SqlValue)
  orderBy : Option (String × String)
  limit : Int
deriving DecidableEq, Repr

/-- The three `if params.<field>:` filter blocks of `query_housing_data`,
in source order: ocean_proximity equality, then min_price and max_price
bounds on median_house_value. -/
def housingFilters (p : HousingQuery) : List (String × String × SqlValue) :=
  (if truthyOptStr p.ocean_proximity then
      [("ocean_proximity", "=", SqlValue.s (p.ocean_proximity.getD ""))]
    else [])
    ++ (if truthyOptRat p.min_price then
      [("median_house_value", ">=", SqlValue.n (p.min_price.getD 0))]
    else [])
    ++ (if truthyOptRat p.max_price then
      [("median_house_value", "<=", SqlValue.n (p.max_price.getD 0))]
    else [])

/-- `query_housing_data` up to (but not including) execution: filters, the
sort block guarded by `params.sort_by in valid_sort_cols`, and the limit.
When `sort_by` is whitelisted but `sort_order` is `None`, the source
evaluates `params.sort_order.upper()` and raises `AttributeError`; that
raise is the `Except.error` branch. -/
def buildHousingQuery (p : HousingQuery) : Except String BuiltQuery :=
  match p.sort_by with
  | none => Except.ok ⟨housingFilters p, none, p.limit⟩
  | some c =>
    if c ∈ valid_sort_cols then
      match p.sort_order with
      | none => Except.error "AttributeError: NoneType object has no attribute upper"
      | some o =>
        Except.ok ⟨housingFilters p,
          some (c, if pyUpper o == "DESC" then "DESC" else "ASC"), p.limit⟩
    else Except.ok ⟨housingFilters p, none, p.limit⟩

/-- Renders the SQL text exactly as the source concatenates it:
`SELECT * FROM housing WHERE 1=1`, one ` AND col op ?` per filter, an
optional ` ORDER BY col dir`, and ` LIMIT n` (the limit is interpolated
into the text; the filter values are not). -/
def renderSQL (b : BuiltQuery) : String :=
  "SELECT * FROM housing WHERE 1=1"
    ++ String.join (b.filters.map (fun f => " AND " ++ f.1 ++ " " ++ f.2.1 ++ " ?"))
    ++ (match b.orderBy with
        | some co => " ORDER BY " ++ co.1 ++ " " ++ co.2
        | none => "")
    ++ " LIMIT " ++ toString b.limit

/-- The `args` list passed alongside the SQL text to `pd.read_sql_query`. -/
def boundArgs (b : BuiltQuery) : List SqlValue := b.filters.map (fun f => f.2.2)

/-- What reaches the executor: the SQL text and the bound parameters. -/
def housingSQL (p : HousingQuery) : Except String (String × List SqlValue) :=
  Except.map (fun b => (renderSQL b, boundArgs b)) (buildHousingQuery p)

/-- Every filter the builder can emit names `ocean_proximity` or
`median_house_value`. -/
theorem housingFilters_cols (p : HousingQuery) :
    ∀ f ∈ housingFilters p, f.1 = "ocean_proximity" ∨ f.1 = "median_house_value" := by
  intro f hmem
  unfold housingFilters at hmem
  rcases List.mem_append.mp hmem with h12 | h3
  · rcases List.mem_append.mp h12 with h1 | h2
    · split at h1
      · simp only [List.mem_singleton] at h1
        subst h1
        left
        rfl
      · simp at h1
    · split at h2
      · simp only [List.mem_singleton] at h2
        subst h2
        right
        rfl
      · simp at h2
  · split at h3
    · simp only [List.mem_singleton] at h3
      subst h3
      right
      rfl
    · simp at h3

/-- Shape of any successfully built query: its filters are the three
guarded filter blocks, its limit is the requested limit, and its ORDER BY
clause (if any) names the requested, whitelisted sort column. -/
theorem buildHousingQuery_ok (p : HousingQuery) (b : BuiltQuery)
    (h : buildHousingQuery p = Except.ok b) :
    b.filters = housingFilters p ∧ b.limit = p.limit ∧
      (b.orderBy = none ∨
        ∃ c d, p.sort_by = some c ∧ c ∈ valid_sort_cols ∧ b.orderBy = some (c, d)) := by
  cases hsb : p.sort_by with
  | none =>
    simp only [buildHousingQuery, hsb] at h
    cases h
    exact ⟨rfl, rfl, Or.inl rfl⟩
  | some c =>
    by_cases hc : c ∈ valid_sort_cols
    · cases hso : p.sort_order with
      | none =>
        simp only [buildHousingQuery, hsb, hso, if_pos hc] at h
        exact Except.noConfusion h
      | some o =>
        simp only [buildHousingQuery, hsb, hso, if_pos hc] at h
        cases h
        exact ⟨rfl, rfl, Or.inr ⟨c, _, rfl, hc, rfl⟩⟩
    · simp only [buildHousingQuery, hsb, if_neg hc] at h
      cases h
      exact ⟨rfl, rfl, Or.inl rfl⟩

/-- Claim C1: every column name in a generated housing_query statement is
whitelisted — the filter predicates use only the hard-coded columns
`ocean_proximity` and `median_house_value`, and an ORDER BY clause names a
column only when it is the requested `sort_by` and that column is in the
fixed whitelist `valid_sort_cols`; no non-whitelisted identifier reaches
the executor. -/
theorem C1_columns_whitelisted (p : HousingQuery) (b : BuiltQuery)
    (h : buildHousingQuery p = Except.ok b) :
    (∀ f ∈ b.filters, f.1 = "ocean_proximity" ∨ f.1 = "median_house_value") ∧
      (∀ c d, b.orderBy = some (c, d) → c ∈ valid_sort_cols ∧ p.sort_by = some c) := by
  obtain ⟨hf, _, hord⟩ := buildHousingQuery_ok p b h
  constructor
  · intro f hmem
    rw [hf] at hmem
    exact housingFilters_cols p f hmem
  · intro c d hcd
    rcases hord with hnone | ⟨c', d', hsb, hc', hob⟩
    · rw [hnone] at hcd
      cases hcd
    · rw [hob] at hcd
      obtain ⟨rfl, rfl⟩ : c' = c ∧ d' = d := by simpa using hcd
      exact ⟨hc', hsb⟩

/-- Witness for C1 at a concrete accepted request. -/
theorem C1_witness :
    buildHousingQuery ⟨none, some 100, none, 5, some "median_income", some "ASC"⟩
        = Except.ok ⟨[("median_house_value", ">=", SqlValue.n 100)],
            some ("median_income", "ASC"), 5⟩ ∧
      (("median_house_value" : String) = "ocean_proximity" ∨
        ("median_house_value" : String) = "median_house_value") :=
  ⟨by rfl,
    (C1_columns_whitelisted ⟨none, some 100, none, 5, some "median_income", some "ASC"⟩
        ⟨[("median_house_value", ">=", SqlValue.n 100)], some ("median_income", "ASC"), 5⟩
        (by rfl)).1 ("median_house_value", ">=", SqlValue.n 100) (by simp)⟩

/-- The per-filter SQL fragments mention each filter's column and operator
but never its bound value, so they agree between two requests whose
truthiness pattern agrees. -/
theorem housingFilters_render_eq (p q : HousingQuery)
    (h1 : truthyOptStr p.ocean_proximity = truthyOptStr q.ocean_proximity)
    (h2 : truthyOptRat p.min_price = truthyOptRat q.min_price)
    (h3 : truthyOptRat p.max_price = truthyOptRat q.max_price) :
    (housingFilters p).map (fun f => " AND " ++ f.1 ++ " " ++ f.2.1 ++ " ?")
      = (housingFilters q).map (fun f => " AND " ++ f.1 ++ " " ++ f.2.1 ++ " ?") := by
  unfold housingFilters
  rw [h1, h2, h3]
  cases hb1 : truthyOptStr q.ocean_proximity <;> cases hb2 : truthyOptRat q.min_price <;>
    cases hb3 : truthyOptRat q.max_price <;> simp

/-- Claim C2 (amended): the generated SQL text depends only on which
filter parameters are truthy (non-`None` and nonzero/nonempty) and on
`sort_by`, `sort_order` and `limit` — never on the content of a filter
value, which reaches the executor only through the bound-argument list. -/
theorem C2_sql_text_value_independent (p q : HousingQuery)
    (h1 : truthyOptStr p.ocean_proximity = truthyOptStr q.ocean_proximity)
    (h2 : truthyOptRat p.min_price = truthyOptRat q.min_price)
    (h3 : truthyOptRat p.max_price = truthyOptRat q.max_price)
    (h4 : p.sort_by = q.sort_by) (h5 : p.sort_order = q.sort_order)
    (h6 : p.limit = q.limit) :
    Except.map renderSQL (buildHousingQuery p) = Except.map renderSQL (buildHousingQuery q) := by
  have hmap := housingFilters_render_eq p q h1 h2 h3
  cases hq : q.sort_by with
  | none =>
    have hp : p.sort_by = none := h4.trans hq
    simp only [buildHousingQuery, hp, hq, Except.map, renderSQL, hmap, h6]
  | some c =>
    have hp : p.sort_by = some c := h4.trans hq
    by_cases hc : c ∈ valid_sort_cols
    · cases hqo : q.sort_order with
      | none =>
        have hpo : p.sort_order = none := h5.trans hqo
        simp only [buildHousingQuery, hp, hq, hpo, hqo, if_pos hc]
      | some o =>
        have hpo : p.sort_order = some o := h5.trans hqo
        simp only [buildHousingQuery, hp, hq, hpo, hqo, if_pos hc, Except.map, renderSQL,
          hmap, h6]
    · simp only [buildHousingQuery, hp, hq, if_neg hc, Except.map, renderSQL, hmap, h6]

/-- Witness for C2: the adversarial filter value `'; DROP TABLE x; --`
produces exactly the same SQL text as the benign value `INLAND` and is
shipped to the executor only inside the bound-argument list. -/
theorem C2_witness :
    Except.map renderSQL (buildHousingQuery { ocean_proximity := some "\x27; DROP TABLE x; --" })
        = Except.map renderSQL (buildHousingQuery { ocean_proximity := some "INLAND" }) ∧
      housingSQL { ocean_proximity := some "\x27; DROP TABLE x; --" }
        = Except.ok ("SELECT * FROM housing WHERE 1=1 AND ocean_proximity = ? LIMIT 5",
            [SqlValue.s "\x27; DROP TABLE x; --"]) :=
  ⟨C2_sql_text_value_independent
      { ocean_proximity := some "\x27; DROP TABLE x; --" }
      { ocean_proximity := some "INLAND" } rfl rfl rfl rfl rfl rfl,
    by rfl⟩

/-- Counterexample for C2 as literally stated: `min_price` is *present*
(not `None`) in both requests, every other field agrees, yet the generated
SQL text differs because presence is tested by truthiness — the value `0`
suppresses the predicate while `1` emits it. -/
theorem C2_counterexample :
    (({ min_price := some 0 } : HousingQuery).min_price.isSome = true) ∧
      (({ min_price := some 1 } : HousingQuery).min_price.isSome = true) ∧
      ({ min_price := some 0 } : HousingQuery).sort_by
        = ({ min_price := some 1 } : HousingQuery).sort_by ∧
      ({ min_price := some 0 } : HousingQuery).limit
        = ({ min_price := some 1 } : HousingQuery).limit ∧
      Except.map renderSQL (buildHousingQuery { min_price := some 0 })
        ≠ Except.map renderSQL (buildHousingQuery { min_price := some 1 }) := by
  refine ⟨rfl, rfl, rfl, rfl, ?_⟩
  decide

/-- The default request (all pydantic defaults). -/
def defaultHousingQuery : HousingQuery := {}

/-- Claim C5 (amended): every generated statement carries a LIMIT clause;
the limit defaults to 5 when the request does not specify one, and the
applied limit is the requested limit verbatim — the builder imposes no
upper ceiling on it. -/
theorem C5_limit_default_and_passthrough :
    defaultHousingQuery.limit = 5 ∧
      housingSQL defaultHousingQuery
        = Except.ok ("SELECT * FROM housing WHERE 1=1 LIMIT 5", []) ∧
      (∀ p b, buildHousingQuery p = Except.ok b → b.limit = p.limit) :=
  ⟨rfl, by rfl, fun p b h => ((buildHousingQuery_ok p b h).2).1⟩

/-- Witness for C5 at a concrete oversized request. -/
theorem C5_witness :
    (⟨[], none, 1000000⟩ : BuiltQuery).limit = ({ limit := 1000000 } : HousingQuery).limit :=
  C5_limit_default_and_passthrough.2.2 { limit := 1000000 } ⟨[], none, 1000000⟩ (by rfl)

/-- Counterexample for C5 as literally stated: there is no hard ceiling —
a request for a billion rows is rendered verbatim, and no integer bounds
the limit of all accepted requests. -/
theorem C5_no_ceiling_counterexample :
    housingSQL { limit := 1000000000 }
        = Except.ok ("SELECT * FROM housing WHERE 1=1 LIMIT 1000000000", []) ∧
      ¬ ∃ ceiling : Int, ∀ p b, buildHousingQuery p = Except.ok b → b.limit ≤ ceiling := by
  constructor
  · rfl
  · rintro ⟨ceiling, h⟩
    have h1 := h { limit := ceiling + 1 } ⟨[], none, ceiling + 1⟩ rfl
    have h2 : (ceiling + 1 : Int) ≤ ceiling := h1
    omega

/-- The builder reads a request only through its truthy filters, sort
fields and limit. -/
theorem build_congr (p1 p2 : HousingQuery) (hs : p1.sort_by = p2.sort_by)
    (ho : p1.sort_order = p2.sort_order) (hl : p1.limit = p2.limit)
    (hf : housingFilters p1 = housingFilters p2) :
    buildHousingQuery p1 = buildHousingQuery p2 := by
  unfold buildHousingQuery
  rw [hs, ho, hl, hf]

/-- Claim C9: a `min_price` or `max_price` equal to 0, or an empty-string
`ocean_proximity`, is treated exactly as if the parameter were absent —
the built statement is the one built with the field set to `None`, so no
corresponding predicate is emitted. -/
theorem C9_zero_and_empty_treated_as_absent (p : HousingQuery) :
    buildHousingQuery { p with min_price := some 0 }
        = buildHousingQuery { p with min_price := none } ∧
      buildHousingQuery { p with max_price := some 0 }
        = buildHousingQuery { p with max_price := none } ∧
      buildHousingQuery { p with ocean_proximity := some "" }
        = buildHousingQuery { p with ocean_proximity := none } := by
  refine ⟨?_, ?_, ?_⟩ <;> apply build_congr <;>
    simp [housingFilters, truthyOptStr, truthyOptRat]

/-! ## execute_read_query (src/tools_db.py and src/backend.py) -/

/-- Python whitespace for `str.strip()` and the `\s` regex class. -/
def isPySpace (c : Char) : Bool :=
  c == ' ' || c == '\t' || c == '\n' || c == '\r' || c == '\x0b' || c == '\x0c'

/-- Python `str.strip()` on the character list: drop whitespace at both ends. -/
def pyStripL (cs : List Char) : List Char :=
  ((cs.dropWhile isPySpace).reverse.dropWhile isPySpace).reverse

/-- Python `str.strip()`. -/
def pyStrip (s : String) : String := String.mk (pyStripL s.toList)

/-- One step of the modelled database interaction. -/
inductive DbAction where
  | connect
  | runSql (q : String)
  | close
deriving DecidableEq, Repr

/-- Boolean success test for an `Except` result. -/
def exceptIsOk : Except String (List DbAction) → Bool
  | Except.ok _ => true
  | Except.error _ => false

/-- `tools_db.execute_read_query`: the guard
`query.strip().upper().startswith("SELECT")`; on failure it raises
`ValueError` (the `Except.error`) before any connection is opened; on
success it connects, executes the query and closes.  The SQLite
interaction is modelled as the trace of actions performed. -/
def execute_read_query (q : String) : Except String (List DbAction) :=
  if "SELECT".toList.isPrefixOf ((pyStripL q.toList).map Char.toUpper) then
    Except.ok [DbAction.connect, DbAction.runSql q, DbAction.close]
  else
    Except.error "Only SELECT queries are allowed for safety reasons."

/-- `backend.execute_read_query`: the same guard, but a rejected query
returns the error string instead of raising. -/
def backend_execute_read_query (q : String) : String ⊕ List DbAction :=
  if "SELECT".toList.isPrefixOf ((pyStripL q.toList).map Char.toUpper) then
    Sum.inr [DbAction.connect, DbAction.runSql q, DbAction.close]
  else
    Sum.inl "Error: Only SELECT queries are allowed."

/-- Character-wise case-insensitive prefix test; this follows the claim's
words "starts with SELECT case-insensitively", to be compared with the
code's strip-uppercase-startswith chain. -/
def ciPrefix : List Char → List Char → Bool
  | [], _ => true
  | _ :: _, [] => false
  | p :: ps, c :: cs => (Char.toUpper c == Char.toUpper p) && ciPrefix ps cs

/-- "The query string, after stripping surrounding whitespace, starts with
SELECT case-insensitively" — stated the claim's way. -/
def startsWithSelectCI (q : String) : Bool := ciPrefix "SELECT".toList (pyStripL q.toList)

/-- Boolean equality of characters is symmetric. -/
theorem charBeqComm (a b : Char) : (a == b) = (b == a) := by
  by_cases h : a = b
  · subst h; rfl
  · have h1 : (a == b) = false := by simp [h]
    have h2 : (b == a) = false := by simp [Ne.symm h]
    rw [h1, h2]

/-- Uppercasing then testing an already-uppercase prefix is the
character-wise case-insensitive prefix test. -/
theorem upperPrefix_eq_ciPrefix (ps : List Char) (hps : ∀ p ∈ ps, Char.toUpper p = p) :
    ∀ cs : List Char, ps.isPrefixOf (cs.map Char.toUpper) = ciPrefix ps cs := by
  induction ps with
  | nil => intro cs; cases cs <;> rfl
  | cons p ps ih =>
    intro cs
    cases cs with
    | nil => rfl
    | cons c cs =>
      have hp : Char.toUpper p = p := hps p (by simp)
      have ih' := ih (fun x hx => hps x (by simp [hx])) cs
      simp only [List.isPrefixOf, ciPrefix, ih', hp, charBeqComm p c.toUpper]

/-- Claim C10: each `execute_read_query` variant executes its argument
against the database if and only if the stripped query starts with SELECT
case-insensitively; every other input is rejected — with a raised
`ValueError` in the tools_db variant and an error string in the backend
variant — before any connection is opened, so the trace of database
actions is empty. -/
theorem C10_select_guard (q : String) :
    (exceptIsOk (execute_read_query q) = startsWithSelectCI q) ∧
      (startsWithSelectCI q = false →
        execute_read_query q
            = Except.error "Only SELECT queries are allowed for safety reasons." ∧
          backend_execute_read_query q = Sum.inl "Error: Only SELECT queries are allowed.") ∧
      (startsWithSelectCI q = true →
        execute_read_query q
            = Except.ok [DbAction.connect, DbAction.runSql q, DbAction.close] ∧
          backend_execute_read_query q
            = Sum.inr [DbAction.connect, DbAction.runSql q, DbAction.close]) := by
  have hguard : "SELECT".toList.isPrefixOf ((pyStripL q.toList).map Char.toUpper)
      = startsWithSelectCI q := by
    have h := upperPrefix_eq_ciPrefix "SELECT".toList (by decide) (pyStripL q.toList)
    simpa [startsWithSelectCI] using h
  refine ⟨?_, fun h => ?_, fun h => ?_⟩
  · simp only [execute_read_query, hguard]
    cases startsWithSelectCI q <;> rfl
  · unfold execute_read_query backend_execute_read_query
    rw [hguard, h]
    exact ⟨rfl, rfl⟩
  · unfold execute_read_query backend_execute_read_query
    rw [hguard, h]
    exact ⟨rfl, rfl⟩

/-- Witness for C10: a SELECT query runs; a DROP statement is rejected
with the two variants' respective error values. -/
theorem C10_witness :
    (startsWithSelectCI "  select * from housing" = true ∧
        execute_read_query "  select * from housing"
          = Except.ok [DbAction.connect, DbAction.runSql "  select * from housing",
              DbAction.close]) ∧
      (startsWithSelectCI "DROP TABLE housing" = false ∧
        backend_execute_read_query "DROP TABLE housing"
          = Sum.inl "Error: Only SELECT queries are allowed.") :=
  ⟨⟨by decide, ((C10_select_guard "  select * from housing").2.2 (by decide)).1⟩,
    ⟨by decide, ((C10_select_guard "DROP TABLE housing").2.1 (by decide)).2⟩⟩

/-! ## LLM output parsing (src/chatbot_agent.py, `parse_llm_output`)

The parsed value universe shared by `json.loads` and `ast.literal_eval` on
the object-literal fragment this code consumes: objects, arrays, strings
with single-character escapes, integer numerals, booleans and null.
Numerals are modelled as integers (the tool-call payloads this service
parses carry integer literals). -/

inductive JValue where
  | null
  | bool (b : Bool)
  | num (n : Int)
  | str (s : String)
  | arr (elems : List JValue)
  | obj (members : List (String × JValue))
deriving Repr

/-- Skip leading whitespace. -/
def skipWs : List Char → List Char
  | [] => []
  | c :: cs => if isPySpace c then skipWs cs else c :: cs

/-- One string-escape character (`\"`, `\'`, `\\`, `\/`, `\n`, `\t`, `\r`,
`\b`, `\f`). -/
def escChar (e : Char) : Option Char :=
  if e == '"' then some '"'
  else if e == '\'' then some '\''
  else if e == '\\' then some '\\'
  else if e == '/' then some '/'
  else if e == 'n' then some '\n'
  else if e == 't' then some '\t'
  else if e == 'r' then some '\r'
  else if e == 'b' then some '\x08'
  else if e == 'f' then some '\x0c'
  else none

/-- Parse the body of a quoted string up to the closing quote `q`,
returning the decoded characters and the rest of the input. -/
def parseStrChars (q : Char) : List Char → Option (List Char × List Char)
  | [] => none
  | c :: cs =>
    if c == q then some ([], cs)
    else if c == '\\' then
      match cs with
      | [] => none
      | e :: cs2 =>
        match escChar e with
        | none => none
        | some ec =>
          match parseStrChars q cs2 with
          | none => none
          | some (body, rest) => some (ec :: body, rest)
    else
      match parseStrChars q cs with
      | none => none
      | some (body, rest) => some (c :: body, rest)

/-- Decimal digits to a natural number. -/
def digitsToNat (ds : List Char) : Nat := ds.foldl (fun a c => a * 10 + (c.toNat - 48)) 0

/-- Parse an (optionally negated) integer numeral. -/
def parseNumber (cs : List Char) : Option (JValue × List Char) :=
  match cs with
  | '-' :: rest =>
    let ds := rest.takeWhile Char.isDigit
    if ds.isEmpty then none
    else some (JValue.num (-(digitsToNat ds : Int)), rest.dropWhile Char.isDigit)
  | _ =>
    let ds := cs.takeWhile Char.isDigit
    if ds.isEmpty then none
    else some (JValue.num (digitsToNat ds), cs.dropWhile Char.isDigit)

mutual

/-- Parse one value.  `strict = true` is the `json.loads` grammar
(double-quoted strings, `true`/`false`/`null`); `strict = false` is the
`ast.literal_eval` fragment (single- or double-quoted strings,
`True`/`False`/`None`).  Fuel decreases on every call; the top-level
entry point supplies enough fuel that it never runs out. -/
def jvalueP (strict : Bool) : Nat → List Char → Option (JValue × List Char)
  | 0, _ => none
  | fuel + 1, cs =>
    match skipWs cs with
    | [] => none
    | c :: rest =>
      if c == '\x7b' then jobjectP strict fuel rest
      else if c == '[' then jarrayP strict fuel rest
      else if c == '"' then
        match parseStrChars '"' rest with
        | some (body, rem) => some (JValue.str (String.mk body), rem)
        | none => none
      else if c == '\'' then
        if strict then none
        else
          match parseStrChars '\'' rest with
          | some (body, rem) => some (JValue.str (String.mk body), rem)
          | none => none
      else if c == '-' || c.isDigit then parseNumber (c :: rest)
      else if strict && "true".toList.isPrefixOf (c :: rest) then
        some (JValue.bool true, (c :: rest).drop 4)
      else if strict && "false".toList.isPrefixOf (c :: rest) then
        some (JValue.bool false, (c :: rest).drop 5)
      else if strict && "null".toList.isPrefixOf (c :: rest) then
        some (JValue.null, (c :: rest).drop 4)
      else if !strict && "True".toList.isPrefixOf (c :: rest) then
        some (JValue.bool true, (c :: rest).drop 4)
      else if !strict && "False".toList.isPrefixOf (c :: rest) then
        some (JValue.bool false, (c :: rest).drop 5)
      else if !strict && "None".toList.isPrefixOf (c :: rest) then
        some (JValue.null, (c :: rest).drop 4)
      else none

/-- Parse an object body after the opening brace. -/
def jobjectP (strict : Bool) : Nat → List Char → Option (JValue × List Char)
  | 0, _ => none
  | fuel + 1, cs =>
    match skipWs cs with
    | '\x7d' :: rest => some (JValue.obj [], rest)
    | _ => jmembersP strict fuel (skipWs cs) []

/-- Parse the members of a nonempty object: a quoted key then the tail. -/
def jmembersP (strict : Bool) :
    Nat → List Char → List (String × JValue) → Option (JValue × List Char)
  | 0, _, _ => none
  | fuel + 1, cs, acc =>
    match skipWs cs with
    | '"' :: rest => jmemberTail strict fuel '"' rest acc
    | '\'' :: rest => if strict then none else jmemberTail strict fuel '\'' rest acc
    | _ => none

/-- After a key's opening quote: key body, colon, value, then a comma
(continue) or a closing brace (finish). -/
def jmemberTail (strict : Bool) :
    Nat → Char → List Char → List (String × JValue) → Option (JValue × List Char)
  | 0, _, _, _ => none
  | fuel + 1, q, cs, acc =>
    match parseStrChars q cs with
    | none => none
    | some (key, rem) =>
      match skipWs rem with
      | ':' :: rem2 =>
        match jvalueP strict fuel rem2 with
        | none => none
        | some (v, rem3) =>
          match skipWs rem3 with
          | ',' :: rem4 => jmembersP strict fuel rem4 (acc ++ [(String.mk key, v)])
          | '\x7d' :: rem4 => some (JValue.obj (acc ++ [(String.mk key, v)]), rem4)
          | _ => none
      | _ => none

/-- Parse an array body after the opening bracket. -/
def jarrayP (strict : Bool) : Nat → List Char → Option (JValue × List Char)
  | 0, _ => none
  | fuel + 1, cs =>
    match skipWs cs with
    | ']' :: rest => some (JValue.arr [], rest)
    | _ => jelemsP strict fuel (skipWs cs) []

/-- Parse the elements of a nonempty array. -/
def jelemsP (strict : Bool) : Nat → List Char → List JValue → Option (JValue × List Char)
  | 0, _, _ => none
  | fuel + 1, cs, acc =>
    match jvalueP strict fuel cs with
    | none => none
    | some (v, rem) =>
      match skipWs rem with
      | ',' :: rem2 => jelemsP strict fuel rem2 (acc ++ [v])
      | ']' :: rem2 => some (JValue.arr (acc ++ [v]), rem2)
      | _ => none

end

/-- Whole-input parse: one value, then only trailing whitespace (both
`json.loads` and `ast.literal_eval` reject trailing data). -/
def jparseFull (strict : Bool) (cs : List Char) : Option JValue :=
  match jvalueP strict (3 * cs.length + 8) cs with
  | some (v, rem) => if (skipWs rem).isEmpty then some v else none
  | none => none

/-- `re.sub` of the fence pattern: at each position, first try to consume
"```json" plus following whitespace; otherwise try a whitespace run
followed by "```"; otherwise emit the character.  Fuel is the input
length, which suffices because every step consumes at least one
character. -/
def stripFencesAux : Nat → List Char → List Char
  | 0, _ => []
  | _ + 1, [] => []
  | fuel + 1, c :: cs =>
    if "```json".toList.isPrefixOf (c :: cs) then
      stripFencesAux fuel (((c :: cs).drop 7).dropWhile isPySpace)
    else
      let w := (c :: cs).dropWhile isPySpace
      if "```".toList.isPrefixOf w then stripFencesAux fuel (w.drop 3)
      else c :: stripFencesAux fuel cs

/-- Markdown code-fence removal as the source's regex substitution does it. -/
def stripFences (cs : List Char) : List Char := stripFencesAux (cs.length + 1) cs

/-- The greedy regex match over DOTALL text: the span from the first
opening brace through the last closing brace, when that span has both. -/
def braceBlob (cs : List Char) : Option (List Char) :=
  let t := cs.dropWhile (fun c => !(c == '\x7b'))
  let u := (t.reverse.dropWhile (fun c => !(c == '\x7d'))).reverse
  if 2 ≤ u.length then some u else none

/-- `blob.replace` of the two-character sequence backslash-n by a space. -/
def replaceBackslashN : List Char → List Char
  | [] => []
  | '\\' :: 'n' :: cs => ' ' :: replaceBackslashN cs
  | c :: cs => c :: replaceBackslashN cs

mutual

/-- `re.sub` collapsing every whitespace run into a single space. -/
def collapseWs : List Char → List Char
  | [] => []
  | c :: cs => if isPySpace c then ' ' :: collapseWsSkip cs else c :: collapseWs cs

/-- Inside a whitespace run: drop until the run ends. -/
def collapseWsSkip : List Char → List Char
  | [] => []
  | c :: cs => if isPySpace c then collapseWsSkip cs else c :: collapseWs cs

end

/-- `parse_llm_output`: strip code fences, take the greedy first-brace to
last-brace span, normalise escaped newlines and whitespace, then strict
(`json.loads`) parse with a lenient (`ast.literal_eval`) fallback; any
failure yields `None`. -/
def parse_llm_output (text : String) : Option JValue :=
  let t1 := stripFences text.toList
  match braceBlob t1 with
  | none => none
  | some blob =>
    let blob2 := collapseWs ((replaceBackslashN blob).map (fun c => if c == '\n' then ' ' else c))
    match jparseFull true blob2 with
    | some v => some v
    | none => jparseFull false blob2

/-- Take a balanced-brace span from a list that starts at an opening
brace, tracking depth.  Used only by the spec-reading parser below. -/
def takeBalanced : List Char → Nat → Option (List Char)
  | [], _ => none
  | c :: cs, depth =>
    if c == '\x7b' then
      match takeBalanced cs (depth + 1) with
      | some body => some (c :: body)
      | none => none
    else if c == '\x7d' then
      if depth == 1 then some [c]
      else
        match takeBalanced cs (depth - 1) with
        | some body => some (c :: body)
        | none => none
    else
      match takeBalanced cs depth with
      | some body => some (c :: body)
      | none => none

/-- The first top-level balanced-brace span of the text, written from the
claim's words (for comparison with the code's greedy `braceBlob`). -/
def firstBalancedSpan (cs : List Char) : Option (List Char) :=
  takeBalanced (cs.dropWhile (fun c => !(c == '\x7b'))) 0

/-- The claim's reading of the pipeline: identical to `parse_llm_output`
except that it locates the first top-level balanced-brace span instead of
the greedy first-to-last-brace span. -/
def parse_llm_output_spec (text : String) : Option JValue :=
  let t1 := stripFences text.toList
  match firstBalancedSpan t1 with
  | none => none
  | some blob =>
    let blob2 := collapseWs ((replaceBackslashN blob).map (fun c => if c == '\n' then ' ' else c))
    match jparseFull true blob2 with
    | some v => some v
    | none => jparseFull false blob2

/-- Python truthiness of a parsed value (`if tool_call:`). -/
def pyTruthy : JValue → Bool
  | JValue.null => false
  | JValue.bool b => b
  | JValue.num n => !(n == 0)
  | JValue.str s => !(s == "")
  | JValue.arr l => !l.isEmpty
  | JValue.obj l => !l.isEmpty

/-- Dictionary lookup (`key in d` / `d[key]` / `d.get(key)`). -/
def jlookup (kvs : List (String × JValue)) (k : String) : Option JValue :=
  match kvs.find? (fun kv => kv.1 == k) with
  | some kv => some kv.2
  | none => none

/-- The tool-selection block of `chat_endpoint` (lines 178-191): a truthy
parsed dict yields `(tool_name, params)` from the `tool` key, else from a
flat `housing_stats` or `housing_query` key; anything else leaves the tool
unset and the turn conversational.  A truthy non-dict never reaches this
code from `parse_llm_output` (every parsed blob starts with a brace), so
that arm resolves to no tool. -/
def resolveTool (tc : Option JValue) : Option (JValue × JValue) :=
  match tc with
  | none => none
  | some v =>
    if pyTruthy v then
      match v with
      | JValue.obj kvs =>
        match jlookup kvs "tool" with
        | some name => some (name, (jlookup kvs "parameters").getD (JValue.obj []))
        | none =>
          match jlookup kvs "housing_stats" with
          | some p => some (JValue.str "housing_stats", p)
          | none =>
            match jlookup kvs "housing_query" with
            | some p => some (JValue.str "housing_query", p)
            | none => none
      | _ => none
    else none

/-- Claim C3 (amended): the parsing pipeline strips code fences, locates
the span from the first opening brace through the last closing brace,
attempts a strict JSON parse, falls back to a lenient literal parse, and
otherwise treats the utterance as non-tool text; fenced output,
single-quoted output, the flat tool-name-keyed shape, and plain prose
resolve to the correct tool call (or to no tool for prose), and any text
whose fence-stripped form has no brace span resolves to no tool. -/
theorem C3_parse_pipeline :
    resolveTool (parse_llm_output
          "```json\n\x7b\"tool\": \"housing_query\", \"parameters\": \x7b\"limit\": 5\x7d\x7d\n```")
        = some (JValue.str "housing_query", JValue.obj [("limit", JValue.num 5)]) ∧
      resolveTool (parse_llm_output
          "\x7b'tool': 'housing_query', 'parameters': \x7b'limit': 5\x7d\x7d")
        = some (JValue.str "housing_query", JValue.obj [("limit", JValue.num 5)]) ∧
      resolveTool (parse_llm_output
          "\x7b\"housing_stats\": \x7b\"group_by\": \"ocean_proximity\"\x7d\x7d")
        = some (JValue.str "housing_stats", JValue.obj [("group_by", JValue.str "ocean_proximity")]) ∧
      resolveTool (parse_llm_output "Hello! How can I help you today?") = none ∧
      (∀ s : String, braceBlob (stripFences s.toList) = none →
        resolveTool (parse_llm_output s) = none) := by
  refine ⟨by rfl, by rfl, by rfl, by rfl, fun s h => ?_⟩
  have hp : parse_llm_output s = none := by
    simp only [parse_llm_output]
    rw [h]
  rw [hp]
  rfl

/-- Witness for C3 on prose with no braces. -/
theorem C3_witness :
    braceBlob (stripFences ("The weather is sunny today.").toList) = none ∧
      resolveTool (parse_llm_output "The weather is sunny today.") = none :=
  ⟨by rfl, C3_parse_pipeline.2.2.2.2 "The weather is sunny today." (by rfl)⟩

/-- Counterexample for C3 as literally stated: the code's regex span runs
greedily from the first opening brace to the LAST closing brace, notate
the first top-level balanced span.  On a tool call followed by prose that
contains another brace pair, the code fails every parse stage and yields
no tool, while the claimed first-balanced-span pipeline extracts the tool
call. -/
theorem C3_counterexample :
    parse_llm_output
        "\x7b\"tool\": \"housing_query\", \"parameters\": \x7b\x7d\x7d Let me know \x7bok\x7d"
        = none ∧
      parse_llm_output_spec
        "\x7b\"tool\": \"housing_query\", \"parameters\": \x7b\x7d\x7d Let me know \x7bok\x7d"
        = some (JValue.obj [("tool", JValue.str "housing_query"),
            ("parameters", JValue.obj [])]) ∧
      resolveTool (parse_llm_output
        "\x7b\"tool\": \"housing_query\", \"parameters\": \x7b\x7d\x7d Let me know \x7bok\x7d")
        = none := by
  exact ⟨by rfl, by rfl, by rfl⟩

/-! ## Chat endpoint (src/chatbot_agent.py, `chat_endpoint`) -/

/-- Python substring membership `pat in s` on character lists. -/
def containsSub : List Char → List Char → Bool
  | [], pat => pat.isEmpty
  | c :: t, pat => pat.isPrefixOf (c :: t) || containsSub t pat

/-- Python substring membership on strings. -/
def strContains (s pat : String) : Bool := containsSub s.toList pat.toList

/-- Python `tool_name == "<literal>"`: true only for the equal string
value; any non-string compares unequal. -/
def jvalueEqStr (v : JValue) (s : String) : Bool :=
  match v with
  | JValue.str t => t == s
  | _ => false

/-- The value of a `ChatResponse` (`Union[dict, str]`): conversational or
error text, or a chart specification object. -/
inductive ChatResp where
  | text (s : String)
  | chart (spec : JValue)
deriving Repr

/-- `list(data_values[0].keys())[0]` with the exceptions Python raises
when the result list or its first row does not have the expected shape. -/
def firstRowFirstKey : JValue → Except String String
  | JValue.arr (JValue.obj ((k, _) :: _) :: _) => Except.ok k
  | JValue.arr (JValue.obj [] :: _) => Except.error "IndexError: list index out of range"
  | JValue.arr (_ :: _) => Except.error "AttributeError: keys"
  | JValue.arr [] => Except.error "IndexError: list index out of range"
  | _ => Except.error "TypeError: object is not subscriptable"

/-- The pie-chart spec of the source (arc mark, theta on value, color on
the group field). -/
def pieSpec (dataValues : JValue) (groupField : String) : JValue :=
  JValue.obj
    [("$schema", JValue.str "https://vega.github.io/schema/vega-lite/v5.json"),
      ("width", JValue.num 400), ("height", JValue.num 400),
      ("data", JValue.obj [("values", dataValues)]),
      ("mark", JValue.obj [("type", JValue.str "arc"), ("outerRadius", JValue.num 120)]),
      ("encoding", JValue.obj
        [("theta", JValue.obj
            [("field", JValue.str "value"), ("type", JValue.str "quantitative")]),
          ("color", JValue.obj
            [("field", JValue.str groupField), ("type", JValue.str "nominal")])])]

/-- The scatter-plot spec of the source (circle mark). -/
def scatterSpec (dataValues : JValue) (groupField : String) : JValue :=
  JValue.obj
    [("$schema", JValue.str "https://vega.github.io/schema/vega-lite/v5.json"),
      ("width", JValue.num 800), ("height", JValue.num 600),
      ("data", JValue.obj [("values", dataValues)]),
      ("mark", JValue.str "circle"),
      ("encoding", JValue.obj
        [("x", JValue.obj
            [("field", JValue.str groupField), ("type", JValue.str "nominal")]),
          ("y", JValue.obj
            [("field", JValue.str "value"), ("type", JValue.str "quantitative")])])]

/-- The line-chart spec of the source. -/
def lineSpec (dataValues : JValue) (groupField : String) : JValue :=
  JValue.obj
    [("$schema", JValue.str "https://vega.github.io/schema/vega-lite/v5.json"),
      ("width", JValue.num 800), ("height", JValue.num 600),
      ("data", JValue.obj [("values", dataValues)]),
      ("mark", JValue.str "line"),
      ("encoding", JValue.obj
        [("x", JValue.obj
            [("field", JValue.str groupField), ("type", JValue.str "nominal")]),
          ("y", JValue.obj
            [("field", JValue.str "value"), ("type", JValue.str "quantitative")])])]

/-- The default bar-chart spec of the source (x is the group field with
nominal type and a zero label angle, y is the `value` field with
quantitative type). -/
def barSpec (dataValues : JValue) (groupField : String) : JValue :=
  JValue.obj
    [("$schema", JValue.str "https://vega.github.io/schema/vega-lite/v5.json"),
      ("width", JValue.num 800), ("height", JValue.num 600),
      ("data", JValue.obj [("values", dataValues)]),
      ("mark", JValue.str "bar"),
      ("encoding", JValue.obj
        [("x", JValue.obj
            [("field", JValue.str groupField), ("type", JValue.str "nominal"),
              ("axis", JValue.obj [("labelAngle", JValue.num 0)])]),
          ("y", JValue.obj
            [("field", JValue.str "value"), ("type", JValue.str "quantitative")])])]

/-- The Vega-Lite spec builder of the housing_stats branch: mark type from
keyword cues in the lowered user message (pie/distribution/share → arc,
scatter/correlation → circle, line/trend → line, otherwise bar), with the
field layout of the source. -/
def buildVegaSpec (userMsg : String) (dataValues : JValue) : Except String JValue :=
  match firstRowFirstKey dataValues with
  | Except.error e => Except.error e
  | Except.ok groupField =>
    let lower := pyLower userMsg
    if strContains lower "pie" || strContains lower "distribution" || strContains lower "share" then
      Except.ok (pieSpec dataValues groupField)
    else if strContains lower "scatter" || strContains lower "correlation" then
      Except.ok (scatterSpec dataValues groupField)
    else if strContains lower "line" || strContains lower "trend" then
      Except.ok (lineSpec dataValues groupField)
    else
      Except.ok (barSpec dataValues groupField)

/-- The body of `chat_endpoint` inside its `try` block, as an exception
monad: the first model call and the two tool endpoints are oracles that
either return text or raise; the second (summary) model call is an oracle
over the data the source's prompt is built from (user message, tool
parameters, API response). -/
def chatTurnE (userMsg : String) (m1 : Except String String)
    (searchApi statsApi : JValue → Except String JValue)
    (m2 : String → JValue → JValue → Except String String) : Except String ChatResp :=
  match m1 with
  | Except.error e => Except.error e
  | Except.ok raw =>
    let content1 := pyStrip raw
    match resolveTool (parse_llm_output content1) with
    | some (name, params) =>
      if jvalueEqStr name "housing_query" then
        match searchApi params with
        | Except.error e => Except.error e
        | Except.ok resultData =>
          match resultData with
          | JValue.obj _ =>
            match m2 userMsg params resultData with
            | Except.error e => Except.error e
            | Except.ok reply => Except.ok (ChatResp.text reply)
          | _ => Except.error "AttributeError: get"
      else if jvalueEqStr name "housing_stats" then
        match statsApi params with
        | Except.error e => Except.error e
        | Except.ok apiData =>
          match apiData with
          | JValue.obj kvs =>
            let dataValues := (jlookup kvs "result").getD (JValue.arr [])
            if pyTruthy dataValues then
              match buildVegaSpec userMsg dataValues with
              | Except.ok spec => Except.ok (ChatResp.chart spec)
              | Except.error e => Except.error e
            else Except.ok (ChatResp.text "No data returned from database.")
          | _ => Except.error "AttributeError: get"
      else Except.ok (ChatResp.text content1)
    | none => Except.ok (ChatResp.text content1)

/-- `chat_endpoint`: the missing-model guard, then the `try` body with the
catch-all `except` that turns any raised exception into an
`Error: ...` reply. -/
def chat_endpoint (hasModel : Bool) (userMsg : String) (m1 : Except String String)
    (searchApi statsApi : JValue → Except String JValue)
    (m2 : String → JValue → JValue → Except String String) : ChatResp :=
  if !hasModel then ChatResp.text "Error: No AI model."
  else
    match chatTurnE userMsg m1 searchApi statsApi m2 with
    | Except.ok r => r
    | Except.error e => ChatResp.text ("Error: " ++ e)

/-- Claim C4: for every inbound request and every outcome of the model
call, the parse, and the tool-API calls, the chat endpoint returns a
user-visible reply: a raised model or tool exception becomes an
`Error: ...` text, an unmatched tool name degrades to the conversational
no-tool reply, and every turn yields either the successful reply or the
catch-all error text — no exception propagates to the caller. -/
theorem C4_always_replies :
    (∀ (userMsg : String) (search stats : JValue → Except String JValue)
        (m2 : String → JValue → JValue → Except String String) (e : String),
        chat_endpoint true userMsg (Except.error e) search stats m2
          = ChatResp.text ("Error: " ++ e)) ∧
      (∀ (userMsg out : String) (search stats : JValue → Except String JValue)
        (m2 : String → JValue → JValue → Except String String) (name params : JValue),
        resolveTool (parse_llm_output (pyStrip out)) = some (name, params) →
        jvalueEqStr name "housing_query" = false →
        jvalueEqStr name "housing_stats" = false →
        chat_endpoint true userMsg (Except.ok out) search stats m2
          = ChatResp.text (pyStrip out)) ∧
      (∀ (userMsg out : String) (search stats : JValue → Except String JValue)
        (m2 : String → JValue → JValue → Except String String),
        resolveTool (parse_llm_output (pyStrip out)) = none →
        chat_endpoint true userMsg (Except.ok out) search stats m2
          = ChatResp.text (pyStrip out)) ∧
      (∀ (userMsg out : String) (search stats : JValue → Except String JValue)
        (m2 : String → JValue → JValue → Except String String) (params : JValue) (e : String),
        resolveTool (parse_llm_output (pyStrip out))
            = some (JValue.str "housing_query", params) →
        search params = Except.error e →
        chat_endpoint true userMsg (Except.ok out) search stats m2
          = ChatResp.text ("Error: " ++ e)) ∧
      (∀ (userMsg out : String) (search stats : JValue → Except String JValue)
        (m2 : String → JValue → JValue → Except String String) (params : JValue) (e : String),
        resolveTool (parse_llm_output (pyStrip out))
            = some (JValue.str "housing_stats", params) →
        stats params = Except.error e →
        chat_endpoint true userMsg (Except.ok out) search stats m2
          = ChatResp.text ("Error: " ++ e)) ∧
      (∀ (userMsg : String) (m1 : Except String String)
        (search stats : JValue → Except String JValue)
        (m2 : String → JValue → JValue → Except String String),
        (∃ r, chatTurnE userMsg m1 search stats m2 = Except.ok r ∧
            chat_endpoint true userMsg m1 search stats m2 = r) ∨
          (∃ e, chatTurnE userMsg m1 search stats m2 = Except.error e ∧
            chat_endpoint true userMsg m1 search stats m2
              = ChatResp.text ("Error: " ++ e))) := by
  refine ⟨fun userMsg search stats m2 e => rfl, ?_, ?_, ?_, ?_, ?_⟩
  · intro userMsg out search stats m2 name params hres h1 h2
    have hturn : chatTurnE userMsg (Except.ok out) search stats m2
        = Except.ok (ChatResp.text (pyStrip out)) := by
      simp only [chatTurnE]
      rw [hres]
      simp [h1, h2]
    simp [chat_endpoint, hturn]
  · intro userMsg out search stats m2 hres
    have hturn : chatTurnE userMsg (Except.ok out) search stats m2
        = Except.ok (ChatResp.text (pyStrip out)) := by
      simp only [chatTurnE]
      rw [hres]
    simp [chat_endpoint, hturn]
  · intro userMsg out search stats m2 params e hres hsearch
    have hturn : chatTurnE userMsg (Except.ok out) search stats m2 = Except.error e := by
      simp only [chatTurnE]
      rw [hres]
      simp [jvalueEqStr, hsearch]
    simp [chat_endpoint, hturn]
  · intro userMsg out search stats m2 params e hres hstats
    have hturn : chatTurnE userMsg (Except.ok out) search stats m2 = Except.error e := by
      simp only [chatTurnE]
      rw [hres]
      simp [jvalueEqStr, hstats]
    simp [chat_endpoint, hturn]
  · intro userMsg m1 search stats m2
    cases h : chatTurnE userMsg m1 search stats m2 with
    | ok r => exact Or.inl ⟨r, rfl, by simp [chat_endpoint, h]⟩
    | error e => exact Or.inr ⟨e, rfl, by simp [chat_endpoint, h]⟩

/-- Witness for C4: a raised model call yields the error reply; a tool
name matching no registered tool yields the conversational reply. -/
theorem C4_witness :
    chat_endpoint true "hi" (Except.error "boom") (fun _ => Except.ok JValue.null)
        (fun _ => Except.ok JValue.null) (fun _ _ _ => Except.ok "fine")
      = ChatResp.text ("Error: " ++ "boom") ∧
      chat_endpoint true "hi"
          (Except.ok "\x7b\"tool\": \"weather_api\", \"parameters\": \x7b\x7d\x7d")
          (fun _ => Except.ok JValue.null) (fun _ => Except.ok JValue.null)
          (fun _ _ _ => Except.ok "fine")
        = ChatResp.text (pyStrip "\x7b\"tool\": \"weather_api\", \"parameters\": \x7b\x7d\x7d") :=
  ⟨C4_always_replies.1 "hi" (fun _ => Except.ok JValue.null) (fun _ => Except.ok JValue.null)
      (fun _ _ _ => Except.ok "fine") "boom",
    C4_always_replies.2.1 "hi" "\x7b\"tool\": \"weather_api\", \"parameters\": \x7b\x7d\x7d"
      (fun _ => Except.ok JValue.null) (fun _ => Except.ok JValue.null)
      (fun _ _ _ => Except.ok "fine") (JValue.str "weather_api") (JValue.obj [])
      (by rfl) (by rfl) (by rfl)⟩

/-- Claim C8: an aggregate_stats (housing_stats) flow that returns at
least one data row and whose user utterance contains none of the
pie/distribution/share, scatter/correlation or line/trend cue keywords
produces the default bar chart: mark `bar`, x field the first key of the
first result row (the group-by field) with nominal type, y field `value`
with quantitative type. -/
theorem C8_default_bar_chart (userMsg out : String)
    (search stats : JValue → Except String JValue)
    (m2 : String → JValue → JValue → Except String String)
    (params : JValue) (kvs : List (String × JValue)) (k : String) (v : JValue)
    (restRow : List (String × JValue)) (restRows : List JValue)
    (hres : resolveTool (parse_llm_output (pyStrip out))
      = some (JValue.str "housing_stats", params))
    (hstats : stats params = Except.ok (JValue.obj kvs))
    (hresult : jlookup kvs "result"
      = some (JValue.arr (JValue.obj ((k, v) :: restRow) :: restRows)))
    (hc1 : strContains (pyLower userMsg) "pie" = false)
    (hc2 : strContains (pyLower userMsg) "distribution" = false)
    (hc3 : strContains (pyLower userMsg) "share" = false)
    (hc4 : strContains (pyLower userMsg) "scatter" = false)
    (hc5 : strContains (pyLower userMsg) "correlation" = false)
    (hc6 : strContains (pyLower userMsg) "line" = false)
    (hc7 : strContains (pyLower userMsg) "trend" = false) :
    chat_endpoint true userMsg (Except.ok out) search stats m2
      = ChatResp.chart
          (barSpec (JValue.arr (JValue.obj ((k, v) :: restRow) :: restRows)) k) := by
  have hvega : buildVegaSpec userMsg (JValue.arr (JValue.obj ((k, v) :: restRow) :: restRows))
      = Except.ok (barSpec (JValue.arr (JValue.obj ((k, v) :: restRow) :: restRows)) k) := by
    simp only [buildVegaSpec, firstRowFirstKey]
    rw [hc1, hc2, hc3, hc4, hc5, hc6, hc7]
    simp
  have hturn : chatTurnE userMsg (Except.ok out) search stats m2
      = Except.ok (ChatResp.chart
          (barSpec (JValue.arr (JValue.obj ((k, v) :: restRow) :: restRows)) k)) := by
    simp only [chatTurnE]
    rw [hres]
    simp only [jvalueEqStr, hstats]
    rw [hresult]
    simp [pyTruthy, hvega]
  simp [chat_endpoint, hturn]

/-- Witness for C8 on the end-to-end scenario utterance. -/
theorem C8_witness :
    chat_endpoint true "plot average house price by ocean proximity"
        (Except.ok "\x7b\"housing_stats\": \x7b\x7d\x7d")
        (fun _ => Except.ok JValue.null)
        (fun _ => Except.ok (JValue.obj [("result", JValue.arr
          [JValue.obj [("ocean_proximity", JValue.str "INLAND"),
            ("value", JValue.num 240084)]])]))
        (fun _ _ _ => Except.ok "fine")
      = ChatResp.chart (barSpec (JValue.arr
          [JValue.obj [("ocean_proximity", JValue.str "INLAND"),
            ("value", JValue.num 240084)]]) "ocean_proximity") :=
  C8_default_bar_chart "plot average house price by ocean proximity"
    "\x7b\"housing_stats\": \x7b\x7d\x7d"
    (fun _ => Except.ok JValue.null)
    (fun _ => Except.ok (JValue.obj [("result", JValue.arr
      [JValue.obj [("ocean_proximity", JValue.str "INLAND"),
        ("value", JValue.num 240084)]])]))
    (fun _ _ _ => Except.ok "fine")
    (JValue.obj []) [("result", JValue.arr
      [JValue.obj [("ocean_proximity", JValue.str "INLAND"),
        ("value", JValue.num 240084)]])]
    "ocean_proximity" (JValue.str "INLAND") [("value", JValue.num 240084)] []
    (by rfl) (by rfl) (by rfl)
    (by rfl) (by rfl) (by rfl) (by rfl) (by rfl) (by rfl) (by rfl)

/-! ## housing_query response shape (src/datapipeline_api.py, lines 300-306) -/

/-- The JSON body the housing_query endpoint returns: a single `result`
key holding the record list, or the sentinel string `"No houses found."`
when the dataframe is empty. -/
def housingEndpointResponse (df : List JValue) : List (String × JValue) :=
  if df.isEmpty then [("result", JValue.str "No houses found.")]
  else [("result", JValue.arr df)]

/-- The caller's count extraction `result_data.get('count', 0)`
(src/chatbot_agent.py line 205). -/
def reportedCount (kvs : List (String × JValue)) : JValue :=
  (jlookup kvs "count").getD (JValue.num 0)

/-- Claim C6 (amended): the housing_query endpoint returns an object with
the single key `result`: the ordered list of row-mappings when the match
is nonempty, and the sentinel string `"No houses found."` — not a
zero-length list of the same shape — when it is empty; no count and no
effective-parameter echo is included, so the caller's count lookup always
defaults to 0. -/
theorem C6_result_shape :
    housingEndpointResponse [] = [("result", JValue.str "No houses found.")] ∧
      (∀ df : List JValue, df ≠ [] →
        housingEndpointResponse df = [("result", JValue.arr df)] ∧
          reportedCount (housingEndpointResponse df) = JValue.num 0) := by
  refine ⟨rfl, fun df hdf => ?_⟩
  have hne : df.isEmpty = false := by
    cases df with
    | nil => exact absurd rfl hdf
    | cons a l => rfl
  have h2 : housingEndpointResponse df = [("result", JValue.arr df)] := by
    simp [housingEndpointResponse, hne]
  refine ⟨h2, ?_⟩
  rw [h2]
  rfl

/-- Witness for C6 at a one-row result. -/
theorem C6_witness :
    housingEndpointResponse [JValue.obj [("value", JValue.num 1)]]
        = [("result", JValue.arr [JValue.obj [("value", JValue.num 1)]])] ∧
      reportedCount (housingEndpointResponse [JValue.obj [("value", JValue.num 1)]])
        = JValue.num 0 :=
  C6_result_shape.2 [JValue.obj [("value", JValue.num 1)]] (by simp)

/-- Counterexample for C6 as literally stated: the empty match is answered
with a string sentinel, not a zero-length list of the row shape, and the
response carries no `count` key (only `result`). -/
theorem C6_counterexample :
    housingEndpointResponse [] ≠ [("result", JValue.arr [])] ∧
      jlookup (housingEndpointResponse [JValue.obj [("value", JValue.num 1)]]) "count"
        = none ∧
      jlookup (housingEndpointResponse [JValue.obj [("value", JValue.num 1)]]) "result"
        = some (JValue.arr [JValue.obj [("value", JValue.num 1)]]) := by
  refine ⟨?_, by rfl, by rfl⟩
  intro h
  simp [housingEndpointResponse] at h

/-! ## aggregate_stats (the /tools/housing_stats endpoint) -/

/-- Modelled from the spec: the `/tools/housing_stats` endpoint (the
aggregate_stats query builder) is not present under src/ — only its
caller `chatbot_agent.py` is.  Spec section 4.4: "the aggregate function
is mapped from a small synonym table (average/mean/avg→AVG,
total/sum→SUM, count→COUNT, min, max) defaulting to AVG on unrecognized
input".  Matching is case-normalised, consistently with the caller's
uppercase spellings and with the spec's scenario resolving "sum"→SUM. -/
def aggSynonym (s : String) : String :=
  let t := pyLower s
  if t == "average" || t == "mean" || t == "avg" then "AVG"
  else if t == "total" || t == "sum" then "SUM"
  else if t == "count" then "COUNT"
  else if t == "min" then "MIN"
  else if t == "max" then "MAX"
  else "AVG"

/-- Modelled from the spec: the housing dataset's column names, the
whitelist "derived from DatasetColumn names" (spec section 3). -/
def housingColumns : List String :=
  ["longitude", "latitude", "housing_median_age", "total_rooms", "total_bedrooms",
    "population", "households", "median_income", "median_house_value", "ocean_proximity"]

/-- Modelled from the spec: the aggregate_stats request, with the defaults
the caller's prompt documents (group_by ocean_proximity, target
median_house_value, aggregate AVG). -/
structure StatsQuery where
  group_by : String := "ocean_proximity"
  target_col : String := "median_house_value"
  agg_type : String := "AVG"
deriving DecidableEq, Repr

/-- Modelled from the spec: the aggregate_stats builder — group-by and
aggregated column must both be whitelisted (otherwise an explicit error
result, not a crash), and the applied aggregate function comes from the
synonym table. -/
def aggregate_stats (q : StatsQuery) : Except String (String × String × String) :=
  if q.group_by ∈ housingColumns ∧ q.target_col ∈ housingColumns then
    Except.ok (q.group_by, aggSynonym q.agg_type, q.target_col)
  else Except.error "Invalid column"

/-- Claim C7: the applied aggregate function is the requested `agg_type`
mapped through the synonym table (average/mean/avg→AVG, total/sum→SUM,
count→COUNT, min→MIN, max→MAX), any unrecognized value falls back to AVG,
and a group-by or aggregated column outside the whitelist yields an
explicit error result rather than a crash. -/
theorem C7_agg_synonyms :
    (aggSynonym "average" = "AVG" ∧ aggSynonym "mean" = "AVG" ∧ aggSynonym "avg" = "AVG" ∧
        aggSynonym "total" = "SUM" ∧ aggSynonym "sum" = "SUM" ∧
        aggSynonym "count" = "COUNT" ∧ aggSynonym "min" = "MIN" ∧
        aggSynonym "max" = "MAX" ∧ aggSynonym "AVG" = "AVG" ∧ aggSynonym "SUM" = "SUM") ∧
      (∀ s : String,
        pyLower s ∉ ["average", "mean", "avg", "total", "sum", "count", "min", "max"] →
        aggSynonym s = "AVG") ∧
      (∀ q : StatsQuery, q.group_by ∉ housingColumns ∨ q.target_col ∉ housingColumns →
        aggregate_stats q = Except.error "Invalid column") ∧
      (∀ q : StatsQuery, q.group_by ∈ housingColumns → q.target_col ∈ housingColumns →
        aggregate_stats q = Except.ok (q.group_by, aggSynonym q.agg_type, q.target_col)) := by
  refine ⟨by decide, ?_, ?_, ?_⟩
  · intro s h
    simp only [List.mem_cons, List.not_mem_nil, or_false, not_or] at h
    obtain ⟨h1, h2, h3, h4, h5, h6, h7, h8⟩ := h
    simp [aggSynonym, h1, h2, h3, h4, h5, h6, h7, h8]
  · intro q h
    have hcond : ¬(q.group_by ∈ housingColumns ∧ q.target_col ∈ housingColumns) := by
      rcases h with h | h
      · exact fun hc => h hc.1
      · exact fun hc => h hc.2
    simp [aggregate_stats, hcond]
  · intro q hg ht
    simp [aggregate_stats, hg, ht]

/-- Witness for C7: an unrecognized synonym falls back to AVG, a
non-whitelisted column is rejected with the explicit error result, and
the scenario request (group ocean_proximity, target median_house_value,
aggregate "sum") resolves to SUM. -/
theorem C7_witness :
    aggSynonym "median" = "AVG" ∧
      aggregate_stats ⟨"not_a_column", "median_house_value", "avg"⟩
        = Except.error "Invalid column" ∧
      aggregate_stats ⟨"ocean_proximity", "median_house_value", "sum"⟩
        = Except.ok ("ocean_proximity", "SUM", "median_house_value") :=
  ⟨C7_agg_synonyms.2.1 "median" (by decide),
    C7_agg_synonyms.2.2.1 ⟨"not_a_column", "median_house_value", "avg"⟩ (Or.inl (by decide)),
    C7_agg_synonyms.2.2.2 ⟨"ocean_proximity", "median_house_value", "sum"⟩
      (by decide) (by decide)⟩
